import Mathlib

/-
Verification of the client-side data-source catalog and the two chat
surfaces of the data-stewardship single-page application.

The embedding is shallow: each React event handler is modelled as a pure
Lean function from the component state (plus the outcomes of the external
service calls it awaits, passed in as `Except` values) to the new
component state.  JavaScript string primitives (`toLowerCase`, `trim`,
`includes`, `split`, `join`) are modelled over `List Char`, which keeps
every definition executable and kernel-reducible.
-/

/-! ## JavaScript string primitives -/

/-- JS `String.prototype.toLowerCase`, modelled per character (the source
only relies on ASCII case folding). -/
def jsToLower (s : String) : String := String.mk (s.data.map Char.toLower)

/-- JS `String.prototype.trim`: strip leading and trailing whitespace. -/
def jsTrim (s : String) : String :=
  String.mk (((s.data.dropWhile Char.isWhitespace).reverse.dropWhile Char.isWhitespace).reverse)

/-- Substring occurrence on character lists, the semantics of JS
`String.prototype.includes` (the empty needle occurs in every string). -/
def hasSubstr (s sub : List Char) : Bool :=
  match s with
  | [] => sub.isEmpty
  | c :: t => sub.isPrefixOf (c :: t) || hasSubstr t sub

/-- JS `s.includes(sub)`. -/
def jsIncludes (s sub : String) : Bool := hasSubstr s.data sub.data

/-- JS `String.prototype.split` with a single-character separator:
`"a.b".split / "." = ["a","b"]`, `"".split / "." = [""]`. -/
def splitOnChar (sep : Char) (l : List Char) : List (List Char) :=
  match l with
  | [] => [[]]
  | c :: t =>
    let r := splitOnChar sep t
    if c = sep then [] :: r
    else match r with
         | [] => [[c]]
         | h :: t2 => (c :: h) :: t2

/-- `Number.prototype.toLocaleString` is locale dependent; it is modelled
as plain decimal rendering, which is all the verified properties use (the
properties below never inspect the rendered digits). -/
def toLocaleString (n : Nat) : String := toString n

/-! ## Data model (the `DataSource` record shared by both components) -/

/-- The `type` field of a DataSource: `'csv' | 'json' | 'excel' | 'database'`. -/
inductive DSType
  | csv
  | json
  | excel
  | database
deriving DecidableEq

/-- The `status` field: `'processing' | 'ready' | 'error'`. -/
inductive DSStatus
  | processing
  | ready
  | error
deriving DecidableEq

/-- The `DataSource` interface.  The TS field `type` is a Lean keyword and
is rendered `dsType`; `Date` fields are modelled as `Nat` timestamps. -/
structure DataSource where
  id : String
  name : String
  dsType : DSType
  size : Nat
  uploadedAt : Nat
  status : DSStatus
  recordCount : Option Nat
  columns : Option (List String)
  description : Option String
  fileUrl : Option String
  userId : String
deriving DecidableEq

/-- The object returned by `blink.ai.generateObject` under the fixed
schema `{recordCount, columns, description, dataQuality}` (the first
three required, `dataQuality` optional and never persisted). -/
structure AnalysisObject where
  recordCount : Nat
  columns : List String
  description : String
  dataQuality : Option String
deriving DecidableEq

/-- The parts of a browser `File` the handler reads. -/
structure FileInfo where
  name : String
  size : Nat
deriving DecidableEq

/-- Whether an external call failed (the `catch` branch was taken). -/
def failed {α : Type} : Except Unit α → Bool
  | .error _ => true
  | .ok _ => false

/-! ## DataSourceManager: the Data Source Catalog component -/

namespace DataSourceManager

/-- Component state: the in-memory `dataSources` array, the serialized
collection under the per-user localStorage key (`persisted`), and the
`uploading` / `showUploadDialog` flags touched by `handleFileUpload`. -/
structure CatalogState where
  dataSources : List DataSource
  persisted : List DataSource
  uploading : Bool
  showUploadDialog : Bool
deriving DecidableEq

/-- Result of one `handleFileUpload` invocation: the new component state
plus the value passed to the `onDataSourceSelect` callback (if any). -/
structure UploadResult where
  state : CatalogState
  selectedReported : Option DataSource
deriving DecidableEq

/-- `file.name.split('.').pop()?.toLowerCase()`. -/
def fileTypeOf (name : String) : String :=
  String.mk (((splitOnChar '.' name.data).getLastD []).map Char.toLower)

/-- The `dataType` computation: `let dataType = 'csv'; if json ... else if
xlsx/xls ... else if csv ...`. -/
def dataTypeOf (name : String) : DSType :=
  let fileType := fileTypeOf name
  if fileType = "json" then DSType.json
  else if fileType = "xlsx" ∨ fileType = "xls" then DSType.excel
  else if fileType = "csv" then DSType.csv
  else DSType.csv

/-- The `newDataSource` object literal built on the success path of
`handleFileUpload`. -/
def mkDataSource (file : FileInfo) (now : Nat) (userId : String)
    (publicUrl : String) (analysis : AnalysisObject) : DataSource :=
  { id := "ds_" ++ toString now
  , name := file.name
  , dsType := dataTypeOf file.name
  , size := file.size
  , uploadedAt := now
  , status := DSStatus.ready
  , recordCount := some analysis.recordCount
  , columns := some analysis.columns
  , description := some analysis.description
  , fileUrl := some publicUrl
  , userId := userId }

/-- `handleFileUpload`.  The four awaited external calls — `blink.auth.me`,
`blink.storage.upload` (its `publicUrl`), `blink.data.extractFromBlob`,
and `blink.ai.generateObject` — are passed in as `Except` outcomes; an
`.error` outcome transfers control to the `catch` branch, which only logs,
and the `finally` branch clears `uploading`.  `saveDataSources` (whose own
failure is swallowed internally) is modelled as writing `persisted`.
`hasCallback` records whether an `onDataSourceSelect` prop was supplied. -/
def handleFileUpload (st : CatalogState) (file : Option FileInfo) (now : Nat)
    (authRes : Except Unit String) (uploadRes : Except Unit String)
    (extractRes : Except Unit String) (analysisRes : Except Unit AnalysisObject)
    (hasCallback : Bool) : UploadResult :=
  match file with
  | none => { state := st, selectedReported := none }
  | some f =>
    let st1 : CatalogState := { st with uploading := true }
    match authRes with
    | .error _ => { state := { st1 with uploading := false }, selectedReported := none }
    | .ok userId =>
      match uploadRes with
      | .error _ => { state := { st1 with uploading := false }, selectedReported := none }
      | .ok publicUrl =>
        match extractRes with
        | .error _ => { state := { st1 with uploading := false }, selectedReported := none }
        | .ok _extractedText =>
          match analysisRes with
          | .error _ => { state := { st1 with uploading := false }, selectedReported := none }
          | .ok analysis =>
            let newDataSource := mkDataSource f now userId publicUrl analysis
            let updatedSources := newDataSource :: st1.dataSources
            { state := { st1 with
                dataSources := updatedSources
              , persisted := updatedSources
              , showUploadDialog := false
              , uploading := false }
            , selectedReported := if hasCallback then some newDataSource else none }

/-- `deleteDataSource`: filter the id out and re-persist. -/
def deleteDataSource (st : CatalogState) (id : String) : CatalogState :=
  let updatedSources := st.dataSources.filter (fun ds => ds.id != id)
  { st with dataSources := updatedSources, persisted := updatedSources }

/-- The predicate of the `filteredDataSources` filter:
`ds.name.toLowerCase().includes(q.toLowerCase()) ||
 ds.description?.toLowerCase().includes(q.toLowerCase())`
(an absent description short-circuits to `undefined`, which is falsy). -/
def searchMatch (ds : DataSource) (searchQuery : String) : Bool :=
  jsIncludes (jsToLower ds.name) (jsToLower searchQuery) ||
  (match ds.description with
   | some d => jsIncludes (jsToLower d) (jsToLower searchQuery)
   | none => false)

/-- `filteredDataSources`, computed on render from the collection and the
search query. -/
def filteredDataSources (dataSources : List DataSource) (searchQuery : String) :
    List DataSource :=
  dataSources.filter (fun ds => searchMatch ds searchQuery)

end DataSourceManager

/-! ## DataChatInterface: the Data Chat Surface -/

namespace DataChatInterface

/-- The `type` field of a data-chat `ChatMessage`: `'user' | 'ai'`. -/
inductive CMType
  | user
  | ai
deriving DecidableEq

/-- The optional `analysis` payload of a `ChatMessage` (declared in the
source but never populated; the `charts: any[]` field is not modelled). -/
structure AnalysisPayload where
  insights : Option (List String)
  summary : Option String
deriving DecidableEq

/-- The data-chat `ChatMessage` interface.  The TS field `type` is a Lean
keyword and is rendered `msgType`. -/
structure ChatMessage where
  id : String
  content : String
  msgType : CMType
  timestamp : Nat
  dataSource : Option DataSource
  analysis : Option AnalysisPayload
deriving DecidableEq

/-- `dataSource.recordCount?.toLocaleString() || 'unknown'`: an absent
count is `undefined` (falsy); a present count renders to a nonempty
digit string, which is truthy even for 0. -/
def localeCountOrUnknown : Option Nat → String
  | none => "unknown"
  | some n => toLocaleString n

/-- `dataSource.columns?.length || 0`. -/
def columnsLenOrZero : Option (List String) → Nat
  | none => 0
  | some l => l.length

/-- Fixed head of the welcome template literal, up to the source name. -/
def welcomeIntro : String := "Hello! I\x27m ready to help you analyze \""

/-- Rest of the welcome template literal, after the source name. -/
def welcomeRest (ds : DataSource) : String :=
  "\". This dataset contains " ++ localeCountOrUnknown ds.recordCount ++
  " records with " ++ toString (columnsLenOrZero ds.columns) ++
  " columns.\n\nHere are some things you can ask me:\n• \"Summarize this data\"\n• \"What are the key insights?\"\n• \"Show me data quality issues\"\n• \"Find patterns or trends\"\n• \"Generate a report\"\n\nWhat would you like to know about your data?"

/-- The `welcomeMessage` object literal of `initializeChat`. -/
def welcomeMessage (ds : DataSource) (now : Nat) : ChatMessage :=
  { id := "welcome"
  , content := welcomeIntro ++ ds.name ++ welcomeRest ds
  , msgType := CMType.ai
  , timestamp := now
  , dataSource := some ds
  , analysis := none }

/-- The `initializeChat` closure of the selection-change effect: with no
selected source it returns without touching the transcript; with a
selected source it replaces the transcript with the single welcome
message. -/
def initChat (dataSource : Option DataSource) (messages : List ChatMessage)
    (now : Nat) : List ChatMessage :=
  match dataSource with
  | none => messages
  | some ds => [welcomeMessage ds now]

/-- Data-chat component state touched by `sendMessage`. -/
structure ChatState where
  messages : List ChatMessage
  newMessage : String
  isAiTyping : Bool
  dataContent : String
deriving DecidableEq

/-- Result of one `sendMessage` invocation: the new state and the list of
prompts issued to `blink.ai.generateText` (one entry per request). -/
structure SendOutcome where
  state : ChatState
  prompts : List String
deriving DecidableEq

/-- String rendering of a `DSType`, as interpolated into prompts. -/
def dsTypeStr : DSType → String
  | DSType.csv => "csv"
  | DSType.json => "json"
  | DSType.excel => "excel"
  | DSType.database => "database"

/-- `${dataSource.recordCount || 'unknown'}`: both `undefined` and `0`
are falsy. -/
def countOrUnknown : Option Nat → String
  | none => "unknown"
  | some n => if n = 0 then "unknown" else toString n

/-- `${dataSource.columns?.join(', ') || 'unknown'}`: an absent array is
`undefined` and an empty join is the falsy empty string. -/
def joinOrUnknown : Option (List String) → String
  | none => "unknown"
  | some l => let j := String.intercalate ", " l; if j = "" then "unknown" else j

/-- `${dataSource.description || 'No description'}`. -/
def descriptionOrDefault : Option String → String
  | none => "No description"
  | some s => if s = "" then "No description" else s

/-- `dataContent.substring(0, 2000)`. -/
def sampleOf (dataContent : String) : String := String.mk (dataContent.data.take 2000)

/-- The prompt template literal of `sendMessage`. -/
def promptFor (ds : DataSource) (dataContent : String) (newMessage : String) : String :=
  "You are a data analysis AI assistant helping a data steward analyze their dataset.\n\nDataset Information:\n- Name: " ++
  ds.name ++ "\n- Type: " ++ dsTypeStr ds.dsType ++ "\n- Records: " ++
  countOrUnknown ds.recordCount ++ "\n- Columns: " ++ joinOrUnknown ds.columns ++
  "\n- Description: " ++ descriptionOrDefault ds.description ++
  "\n\nData Sample (first 2000 characters):\n" ++ sampleOf dataContent ++
  "\n\nUser Question: \"" ++ newMessage ++
  "\"\n\nPlease provide a helpful, detailed analysis response. If the user is asking for:\n- Summary: Provide key statistics and overview\n- Insights: Identify patterns, trends, and notable findings  \n- Quality issues: Point out missing data, inconsistencies, duplicates\n- Specific analysis: Answer based on the data content\n- Reports: Structure findings in a clear format\n\nBe specific and reference actual data when possible. Keep responses professional and actionable for data stewardship tasks."

/-- The fixed apology content of the `catch` branch of `sendMessage`. -/
def apologyText : String :=
  "I apologize, but I\x27m having trouble analyzing your data right now. Please try rephrasing your question or check your data source."

/-- The `userMessage` object literal of `sendMessage`. -/
def mkUserMessage (content : String) (now : Nat) : ChatMessage :=
  { id := toString now, content := content, msgType := CMType.user
  , timestamp := now, dataSource := none, analysis := none }

/-- The `aiMessage` object literal of the success branch of `sendMessage`. -/
def mkAiReply (text : String) (ds : DataSource) (now : Nat) : ChatMessage :=
  { id := toString (now + 1), content := text, msgType := CMType.ai
  , timestamp := now, dataSource := some ds, analysis := none }

/-- The `errorMessage` object literal of the `catch` branch of `sendMessage`. -/
def mkErrorReply (now : Nat) : ChatMessage :=
  { id := toString (now + 1), content := apologyText, msgType := CMType.ai
  , timestamp := now, dataSource := none, analysis := none }

/-- `sendMessage`.  The guard `if (!newMessage.trim() || !dataSource)
return` is the no-op path; otherwise the user message is appended
optimistically, one completion request is issued (its outcome passed in
as `aiRes`), and either the returned text or the fixed apology is
appended as an AI message; `finally` clears `isAiTyping`. -/
def sendMessage (st : ChatState) (dataSource : Option DataSource) (now : Nat)
    (aiRes : Except Unit String) : SendOutcome :=
  if jsTrim st.newMessage = "" then { state := st, prompts := [] }
  else match dataSource with
  | none => { state := st, prompts := [] }
  | some ds =>
    let st1 : ChatState :=
      { st with messages := st.messages ++ [mkUserMessage st.newMessage now]
              , newMessage := ""
              , isAiTyping := true }
    let prompt := promptFor ds st.dataContent st.newMessage
    match aiRes with
    | .ok text =>
      { state := { st1 with messages := st1.messages ++ [mkAiReply text ds now]
                          , isAiTyping := false }
      , prompts := [prompt] }
    | .error _ =>
      { state := { st1 with messages := st1.messages ++ [mkErrorReply now]
                          , isAiTyping := false }
      , prompts := [prompt] }

end DataChatInterface

/-! ## ChatWorkspace: the Team Chat Surface -/

namespace ChatWorkspace

/-- The `type` field of a team-chat `Message`: `'user' | 'ai' | 'system'`. -/
inductive TMType
  | user
  | ai
  | system
deriving DecidableEq

/-- The team-chat `Message` interface (field `type` rendered `msgType`). -/
structure Message where
  id : String
  content : String
  userId : String
  userName : String
  timestamp : Nat
  msgType : TMType
deriving DecidableEq

/-- The keyword trigger of `sendMessage`:
`newMessage.toLowerCase().includes('ai') || ...('analyze') || ...('help')`. -/
def triggersAI (text : String) : Bool :=
  jsIncludes (jsToLower text) "ai" ||
  jsIncludes (jsToLower text) "analyze" ||
  jsIncludes (jsToLower text) "help"

/-- The fixed fallback string returned by the `catch` branch of
`generateAIResponse`. -/
def teamFallback : String :=
  "I\x27m here to help with your data stewardship tasks! Could you please rephrase your question?"

/-- `generateAIResponse`: returns the completion text on success and the
fixed fallback on failure — it never throws. -/
def generateAIResponse (aiRes : Except Unit String) : String :=
  match aiRes with
  | .ok text => text
  | .error _ => teamFallback

/-- The optimistic `tempMessage` object literal of `sendMessage`. -/
def mkTempMessage (content userId userName : String) (now : Nat) : Message :=
  { id := toString now, content := content, userId := userId
  , userName := userName, timestamp := now, msgType := TMType.user }

/-- The `aiMessage` object literal built when the nested timers fire. -/
def mkAiMessage (aiRes : Except Unit String) (now : Nat) : Message :=
  { id := toString (now + 1), content := generateAIResponse aiRes
  , userId := "ai", userName := "AI Assistant", timestamp := now
  , msgType := TMType.ai }

/-- Result of one team-chat `sendMessage` invocation.  `messages` is the
transcript after the synchronous part; `scheduled` records the
`(outer setTimeout delay, inner typing delay)` of each scheduled AI
completion; `finalMessages` is the transcript after every scheduled timer
has fired with completion outcome `aiRes`. -/
structure TeamSendResult where
  messages : List Message
  newMessageAfter : String
  scheduled : List (Nat × Nat)
  finalMessages : List Message
deriving DecidableEq

/-- Team-chat `sendMessage`.  The optimistic message is appended before
`blink.realtime.publish` is awaited (`publishRes`); a publish failure
lands in the `catch` branch, which only logs, so the input box is not
cleared and no timer is scheduled.  On success the keyword check may
schedule one AI completion behind the fixed 500ms + 2000ms timers. -/
def sendTeamMessage (messages : List Message) (newMessage : String)
    (userId userName : String) (now : Nat) (publishRes : Except Unit Unit)
    (aiRes : Except Unit String) : TeamSendResult :=
  if jsTrim newMessage = "" then
    { messages := messages, newMessageAfter := newMessage
    , scheduled := [], finalMessages := messages }
  else
    let tempMessage := mkTempMessage newMessage userId userName now
    let afterTemp := messages ++ [tempMessage]
    match publishRes with
    | .error _ =>
      { messages := afterTemp, newMessageAfter := newMessage
      , scheduled := [], finalMessages := afterTemp }
    | .ok _ =>
      if triggersAI newMessage then
        { messages := afterTemp, newMessageAfter := ""
        , scheduled := [(500, 2000)]
        , finalMessages := afterTemp ++ [mkAiMessage aiRes now] }
      else
        { messages := afterTemp, newMessageAfter := ""
        , scheduled := [], finalMessages := afterTemp }

end ChatWorkspace

/-! ## Concrete sample values (used by the closed witness theorems) -/

/-- A concrete stored DataSource, matching the `customers.csv` scenario. -/
def sampleDS : DataSource :=
  { id := "ds_1", name := "customers.csv", dsType := DSType.csv, size := 2048
  , uploadedAt := 0, status := DSStatus.ready, recordCount := some 500
  , columns := some ["id", "name", "email"], description := some "Customer roster"
  , fileUrl := some "https://storage.example/customers.csv", userId := "u1" }

/-- A catalog state holding `sampleDS`, with memory and storage in sync. -/
def sampleCatalog : DataSourceManager.CatalogState :=
  { dataSources := [sampleDS], persisted := [sampleDS]
  , uploading := false, showUploadDialog := false }

/-- The analysis object of the `customers.csv` scenario. -/
def sampleAnalysis : AnalysisObject :=
  { recordCount := 500, columns := ["id", "name", "email"]
  , description := "Customer roster", dataQuality := none }

/-- The uploaded file of the `customers.csv` scenario. -/
def sampleFile : FileInfo := { name := "customers.csv", size := 2048 }

/-- A data-chat state with a nonempty input box. -/
def sampleChatState : DataChatInterface.ChatState :=
  { messages := [], newMessage := "Summarize this data"
  , isAiTyping := false, dataContent := "" }

/-- A data-chat state whose input box holds only whitespace. -/
def sampleBlankChatState : DataChatInterface.ChatState :=
  { messages := [], newMessage := "   ", isAiTyping := false, dataContent := "" }

/-! ## Helper lemmas -/

/-- The empty needle occurs in every string. -/
theorem hasSubstr_nil (l : List Char) : hasSubstr l [] = true := by
  cases l <;> simp [hasSubstr, List.isPrefixOf]

/-- `searchMatch` unfolded into the name/description disjunction. -/
theorem searchMatch_eq_true_iff (ds : DataSource) (q : String) :
    DataSourceManager.searchMatch ds q = true ↔
      (jsIncludes (jsToLower ds.name) (jsToLower q) = true ∨
       ∃ d, ds.description = some d ∧ jsIncludes (jsToLower d) (jsToLower q) = true) := by
  cases h : ds.description <;> simp [DataSourceManager.searchMatch, h]

/-- Every string matches the empty query (the empty needle occurs in
every lowered name). -/
theorem searchMatch_empty (ds : DataSource) : DataSourceManager.searchMatch ds "" = true := by
  have h1 : jsIncludes (jsToLower ds.name) (jsToLower "") = true := hasSubstr_nil _
  simp [DataSourceManager.searchMatch, h1]

/-! ## Claim theorems -/

section ClaimTheorems

open DataSourceManager DataChatInterface ChatWorkspace

/-- C1: if the storage upload, the content extraction, or the AI
structured analysis fails, `handleFileUpload` lands in its `catch` branch:
no DataSource is created, the in-memory and the persisted collections are
both unchanged, nothing is reported to the selection callback, and the
loading flag is cleared. -/
theorem catalog_add_failure_preserves_catalog (st : CatalogState) (f : FileInfo)
    (now : Nat) (authRes uploadRes extractRes : Except Unit String)
    (analysisRes : Except Unit AnalysisObject) (cb : Bool)
    (h : failed uploadRes = true ∨ failed extractRes = true ∨ failed analysisRes = true) :
    (handleFileUpload st (some f) now authRes uploadRes extractRes analysisRes cb).state.dataSources = st.dataSources ∧
    (handleFileUpload st (some f) now authRes uploadRes extractRes analysisRes cb).state.persisted = st.persisted ∧
    (handleFileUpload st (some f) now authRes uploadRes extractRes analysisRes cb).selectedReported = none ∧
    (handleFileUpload st (some f) now authRes uploadRes extractRes analysisRes cb).state.uploading = false := by
  cases authRes <;> cases uploadRes <;> cases extractRes <;> cases analysisRes <;>
    simp_all [handleFileUpload, failed]

/-- C1 witness: a failing upload leaves the sample catalog untouched. -/
theorem catalog_add_failure_preserves_catalog_witness :
    (handleFileUpload sampleCatalog (some sampleFile) 1 (.ok "u1") (.error ()) (.ok "text") (.ok sampleAnalysis) true).state.dataSources = sampleCatalog.dataSources ∧
    (handleFileUpload sampleCatalog (some sampleFile) 1 (.ok "u1") (.error ()) (.ok "text") (.ok sampleAnalysis) true).state.persisted = sampleCatalog.persisted ∧
    (handleFileUpload sampleCatalog (some sampleFile) 1 (.ok "u1") (.error ()) (.ok "text") (.ok sampleAnalysis) true).selectedReported = none ∧
    (handleFileUpload sampleCatalog (some sampleFile) 1 (.ok "u1") (.error ()) (.ok "text") (.ok sampleAnalysis) true).state.uploading = false :=
  catalog_add_failure_preserves_catalog sampleCatalog sampleFile 1 (.ok "u1") (.error ())
    (.ok "text") (.ok sampleAnalysis) true (Or.inl rfl)

/-- C2: a successful add prepends the new DataSource to the collection,
re-persists the whole collection (length grows by exactly one, the new
record sits at the front, every prior record keeps its relative order),
and reports the new record to the selection callback. -/
theorem catalog_add_success_prepends (st : CatalogState) (f : FileInfo) (now : Nat)
    (uid url txt : String) (a : AnalysisObject)
    (hsync : st.persisted = st.dataSources) :
    (handleFileUpload st (some f) now (.ok uid) (.ok url) (.ok txt) (.ok a) true).state.persisted =
      mkDataSource f now uid url a :: st.persisted ∧
    (handleFileUpload st (some f) now (.ok uid) (.ok url) (.ok txt) (.ok a) true).state.persisted.length =
      st.persisted.length + 1 ∧
    (handleFileUpload st (some f) now (.ok uid) (.ok url) (.ok txt) (.ok a) true).state.dataSources =
      mkDataSource f now uid url a :: st.persisted ∧
    (handleFileUpload st (some f) now (.ok uid) (.ok url) (.ok txt) (.ok a) true).selectedReported =
      some (mkDataSource f now uid url a) := by
  simp [handleFileUpload, hsync]

/-- C2 witness: adding `customers.csv` to the sample catalog. -/
theorem catalog_add_success_prepends_witness :
    (handleFileUpload sampleCatalog (some sampleFile) 1 (.ok "u1") (.ok "url") (.ok "text") (.ok sampleAnalysis) true).state.persisted =
      mkDataSource sampleFile 1 "u1" "url" sampleAnalysis :: sampleCatalog.persisted ∧
    (handleFileUpload sampleCatalog (some sampleFile) 1 (.ok "u1") (.ok "url") (.ok "text") (.ok sampleAnalysis) true).state.persisted.length =
      sampleCatalog.persisted.length + 1 ∧
    (handleFileUpload sampleCatalog (some sampleFile) 1 (.ok "u1") (.ok "url") (.ok "text") (.ok sampleAnalysis) true).state.dataSources =
      mkDataSource sampleFile 1 "u1" "url" sampleAnalysis :: sampleCatalog.persisted ∧
    (handleFileUpload sampleCatalog (some sampleFile) 1 (.ok "u1") (.ok "url") (.ok "text") (.ok sampleAnalysis) true).selectedReported =
      some (mkDataSource sampleFile 1 "u1" "url" sampleAnalysis) :=
  catalog_add_success_prepends sampleCatalog sampleFile 1 "u1" "url" "text" sampleAnalysis rfl

/-- C3: the type of a successfully added DataSource is computed from the
filename extension only (`json` for json, `excel` for xlsx/xls, `csv`
otherwise, never `database`), its status is `ready`, and its recordCount,
columns and description copy the AI analysis result. -/
theorem catalog_add_type_and_metadata (st : CatalogState) (f : FileInfo) (now : Nat)
    (uid url txt : String) (a : AnalysisObject) (cb : Bool) :
    (handleFileUpload st (some f) now (.ok uid) (.ok url) (.ok txt) (.ok a) cb).state.dataSources.head? =
      some (mkDataSource f now uid url a) ∧
    (mkDataSource f now uid url a).dsType = dataTypeOf f.name ∧
    (mkDataSource f now uid url a).status = DSStatus.ready ∧
    (mkDataSource f now uid url a).recordCount = some a.recordCount ∧
    (mkDataSource f now uid url a).columns = some a.columns ∧
    (mkDataSource f now uid url a).description = some a.description ∧
    (∀ nm, fileTypeOf nm = "json" → dataTypeOf nm = DSType.json) ∧
    (∀ nm, fileTypeOf nm = "xlsx" ∨ fileTypeOf nm = "xls" → dataTypeOf nm = DSType.excel) ∧
    (∀ nm, fileTypeOf nm ≠ "json" → fileTypeOf nm ≠ "xlsx" → fileTypeOf nm ≠ "xls" →
      dataTypeOf nm = DSType.csv) ∧
    (∀ nm, dataTypeOf nm ≠ DSType.database) := by
  refine ⟨by simp [handleFileUpload], rfl, rfl, rfl, rfl, rfl, ?_, ?_, ?_, ?_⟩
  · intro nm h; simp [dataTypeOf, h]
  · intro nm h
    rcases h with h | h <;> simp [dataTypeOf, h]
  · intro nm h1 h2 h3; simp [dataTypeOf, h1, h2, h3]
  · intro nm
    by_cases h1 : fileTypeOf nm = "json"
    · simp [dataTypeOf, h1]
    · by_cases h2 : fileTypeOf nm = "xlsx" ∨ fileTypeOf nm = "xls"
      · simp [dataTypeOf, h1, h2]
      · by_cases h3 : fileTypeOf nm = "csv" <;> simp [dataTypeOf, h1, h2, h3]

/-- C3 witness: the `customers.csv` scenario — the created record has
type `csv`, status `ready`, recordCount 500 and the three analysed
columns; and the extension map sends json/xlsx to json/excel and an
unknown extension to csv, never to database. -/
theorem catalog_add_type_and_metadata_witness :
    (handleFileUpload sampleCatalog (some sampleFile) 1 (.ok "u1") (.ok "url") (.ok "text") (.ok sampleAnalysis) true).state.dataSources.head? =
      some (mkDataSource sampleFile 1 "u1" "url" sampleAnalysis) ∧
    (mkDataSource sampleFile 1 "u1" "url" sampleAnalysis).dsType = DSType.csv ∧
    (mkDataSource sampleFile 1 "u1" "url" sampleAnalysis).status = DSStatus.ready ∧
    (mkDataSource sampleFile 1 "u1" "url" sampleAnalysis).recordCount = some 500 ∧
    (mkDataSource sampleFile 1 "u1" "url" sampleAnalysis).columns = some ["id", "name", "email"] ∧
    dataTypeOf "report.json" = DSType.json ∧
    dataTypeOf "book.xlsx" = DSType.excel ∧
    dataTypeOf "dump.sql" = DSType.csv ∧
    dataTypeOf "dump.sql" ≠ DSType.database := by
  obtain ⟨h1, h2, h3, h4, h5, _h6, h7, h8, h9, h10⟩ :=
    catalog_add_type_and_metadata sampleCatalog sampleFile 1 "u1" "url" "text" sampleAnalysis true
  exact ⟨h1, h2.trans (by decide), h3, h4, h5,
    h7 "report.json" (by decide), h8 "book.xlsx" (Or.inl (by decide)),
    h9 "dump.sql" (by decide) (by decide) (by decide), h10 "dump.sql"⟩

/-- C4: search returns exactly the sources whose lowered name or lowered
description contains the lowered query (sources without a description
match only on name); the result is a pure subselection of the stored
collection, and a query matching no source yields the empty sequence. -/
theorem catalog_search_characterization (dss : List DataSource) (q : String) :
    (∀ ds, ds ∈ filteredDataSources dss q ↔
        ds ∈ dss ∧
          (jsIncludes (jsToLower ds.name) (jsToLower q) = true ∨
           ∃ d, ds.description = some d ∧ jsIncludes (jsToLower d) (jsToLower q) = true)) ∧
    (filteredDataSources dss q).Sublist dss ∧
    ((∀ ds ∈ dss, searchMatch ds q = false) → filteredDataSources dss q = []) := by
  refine ⟨fun ds => ?_, List.filter_sublist dss, fun h => ?_⟩
  · rw [filteredDataSources, List.mem_filter, searchMatch_eq_true_iff]
  · exact List.filter_eq_nil_iff.mpr (fun ds hds => by simp [h ds hds])

/-- C4 witness: a query matching neither the name nor the description of
the sample source returns the empty sequence. -/
theorem catalog_search_characterization_witness :
    filteredDataSources [sampleDS] "zzz" = [] :=
  (catalog_search_characterization [sampleDS] "zzz").2.2 (by decide)

/-- C5: remove filters the id out of the collection and re-persists the
filtered collection; removing an id that is not present leaves the whole
state unchanged (given the write-through invariant that the persisted
collection mirrors the in-memory one), and remove is idempotent. -/
theorem catalog_remove_filter_idempotent (st : CatalogState) (id : String) :
    (deleteDataSource st id).dataSources = st.dataSources.filter (fun ds => ds.id != id) ∧
    (deleteDataSource st id).persisted = st.dataSources.filter (fun ds => ds.id != id) ∧
    ((st.persisted = st.dataSources ∧ id ∉ st.dataSources.map DataSource.id) →
      deleteDataSource st id = st) ∧
    deleteDataSource (deleteDataSource st id) id = deleteDataSource st id := by
  refine ⟨rfl, rfl, fun ⟨hsync, habs⟩ => ?_, ?_⟩
  · have hall : st.dataSources.filter (fun ds => ds.id != id) = st.dataSources := by
      refine List.filter_eq_self.mpr (fun ds hds => ?_)
      simp only [bne_iff_ne, ne_eq]
      intro hcontra
      exact habs (hcontra ▸ List.mem_map_of_mem DataSource.id hds)
    cases st
    simp_all [deleteDataSource]
  · have hff : (st.dataSources.filter (fun ds => ds.id != id)).filter (fun ds => ds.id != id) =
        st.dataSources.filter (fun ds => ds.id != id) :=
      List.filter_eq_self.mpr (fun ds hds => (List.mem_filter.mp hds).2)
    simp [deleteDataSource, hff]

/-- C5 witness: removing an absent id from the sample catalog is a no-op,
and removing the same id twice equals removing it once. -/
theorem catalog_remove_filter_idempotent_witness :
    deleteDataSource sampleCatalog "nope" = sampleCatalog ∧
    deleteDataSource (deleteDataSource sampleCatalog "nope") "nope" =
      deleteDataSource sampleCatalog "nope" :=
  ⟨(catalog_remove_filter_idempotent sampleCatalog "nope").2.2.1 ⟨rfl, by decide⟩,
   (catalog_remove_filter_idempotent sampleCatalog "nope").2.2.2⟩

/-- C6: selecting a (non-null) DataSource resets the transcript to the
single AI-authored welcome message, whose content contains the name of
the selected source, whatever the transcript held before. -/
theorem datachat_select_resets_transcript (ds : DataSource)
    (prev : List DataChatInterface.ChatMessage) (now : Nat) :
    initChat (some ds) prev now = [welcomeMessage ds now] ∧
    (initChat (some ds) prev now).length = 1 ∧
    (welcomeMessage ds now).msgType = CMType.ai ∧
    ∃ s₁ s₂ : String, (welcomeMessage ds now).content = s₁ ++ ds.name ++ s₂ :=
  ⟨rfl, rfl, rfl, ⟨welcomeIntro, welcomeRest ds, rfl⟩⟩

/-- C7: when the completion request of a data-chat ask fails, exactly one
AI-authored message with the fixed apology text follows the optimistic
user message, exactly one request was issued (no retry), and the
transcript grows by exactly two messages on failure and on success alike. -/
theorem datachat_send_failure_appends_apology (st : DataChatInterface.ChatState)
    (ds : DataSource) (now : Nat) (h : jsTrim st.newMessage ≠ "") :
    (DataChatInterface.sendMessage st (some ds) now (.error ())).state.messages =
      st.messages ++ [mkUserMessage st.newMessage now, mkErrorReply now] ∧
    (mkErrorReply now).msgType = CMType.ai ∧
    (mkErrorReply now).content = apologyText ∧
    (DataChatInterface.sendMessage st (some ds) now (.error ())).prompts.length = 1 ∧
    (∀ aiRes, (DataChatInterface.sendMessage st (some ds) now aiRes).state.messages.length =
      st.messages.length + 2) := by
  refine ⟨?_, rfl, rfl, ?_, ?_⟩
  · simp [DataChatInterface.sendMessage, h]
  · simp [DataChatInterface.sendMessage, h]
  · intro aiRes
    cases aiRes <;> simp [DataChatInterface.sendMessage, h]

/-- C7 witness: a failing completion on the sample chat state appends the
user message and the apology. -/
theorem datachat_send_failure_appends_apology_witness :
    (DataChatInterface.sendMessage sampleChatState (some sampleDS) 5 (.error ())).state.messages =
      sampleChatState.messages ++ [mkUserMessage sampleChatState.newMessage 5, mkErrorReply 5] ∧
    (mkErrorReply 5).msgType = CMType.ai ∧
    (mkErrorReply 5).content = apologyText ∧
    (DataChatInterface.sendMessage sampleChatState (some sampleDS) 5 (.error ())).prompts.length = 1 ∧
    (∀ aiRes, (DataChatInterface.sendMessage sampleChatState (some sampleDS) 5 aiRes).state.messages.length =
      sampleChatState.messages.length + 2) :=
  datachat_send_failure_appends_apology sampleChatState sampleDS 5 (by decide)

/-- C8: a team-chat message containing a trigger keyword schedules exactly
one AI completion behind the fixed 500ms and 2000ms delays and appends
exactly one AI-authored message after the optimistic user message; a
failing completion still yields a message (the fixed fallback string)
because `generateAIResponse` never throws. -/
theorem teamchat_keyword_schedules_ai (msgs : List ChatWorkspace.Message)
    (text uid uname : String) (now : Nat) (aiRes : Except Unit String)
    (htrim : jsTrim text ≠ "") (htrig : triggersAI text = true) :
    (sendTeamMessage msgs text uid uname now (.ok ()) aiRes).scheduled = [(500, 2000)] ∧
    (sendTeamMessage msgs text uid uname now (.ok ()) aiRes).messages =
      msgs ++ [mkTempMessage text uid uname now] ∧
    (mkTempMessage text uid uname now).msgType = TMType.user ∧
    (sendTeamMessage msgs text uid uname now (.ok ()) aiRes).finalMessages =
      msgs ++ [mkTempMessage text uid uname now, mkAiMessage aiRes now] ∧
    (mkAiMessage aiRes now).msgType = TMType.ai ∧
    generateAIResponse (.error ()) = teamFallback := by
  refine ⟨?_, ?_, rfl, ?_, rfl, rfl⟩ <;> simp [sendTeamMessage, htrim, htrig]

/-- C8 witness: sending "please help" with a failing completion schedules
the one delayed AI completion and appends the fallback AI message. -/
theorem teamchat_keyword_schedules_ai_witness :
    (sendTeamMessage [] "please help" "u1" "Ann" 0 (.ok ()) (.error ())).scheduled = [(500, 2000)] ∧
    (sendTeamMessage [] "please help" "u1" "Ann" 0 (.ok ()) (.error ())).messages =
      [] ++ [mkTempMessage "please help" "u1" "Ann" 0] ∧
    (mkTempMessage "please help" "u1" "Ann" 0).msgType = TMType.user ∧
    (sendTeamMessage [] "please help" "u1" "Ann" 0 (.ok ()) (.error ())).finalMessages =
      [] ++ [mkTempMessage "please help" "u1" "Ann" 0, mkAiMessage (.error ()) 0] ∧
    (mkAiMessage (.error ()) 0).msgType = TMType.ai ∧
    generateAIResponse (.error ()) = teamFallback :=
  teamchat_keyword_schedules_ai [] "please help" "u1" "Ann" 0 (.error ())
    (by decide) (by decide)

/-- C9: the empty query is an identity for search, in the same order,
since the empty string occurs case-insensitively in every name. -/
theorem catalog_search_empty_query_identity (dss : List DataSource) :
    filteredDataSources dss "" = dss :=
  List.filter_eq_self.mpr (fun ds _ => searchMatch_empty ds)

/-- C10: a data-chat ask with a whitespace-only input or with no selected
DataSource is a complete no-op — the state (transcript, typing flag,
input field) is returned unchanged and no completion request is issued. -/
theorem datachat_send_guard_noop (st : DataChatInterface.ChatState)
    (dataSource : Option DataSource) (now : Nat) (aiRes : Except Unit String)
    (h : jsTrim st.newMessage = "" ∨ dataSource = none) :
    DataChatInterface.sendMessage st dataSource now aiRes =
      { state := st, prompts := [] } := by
  rcases h with h | h
  · simp [DataChatInterface.sendMessage, h]
  · subst h
    simp [DataChatInterface.sendMessage]

/-- C10 witness: a whitespace-only input with a selected source changes
nothing and issues no request. -/
theorem datachat_send_guard_noop_witness :
    DataChatInterface.sendMessage sampleBlankChatState (some sampleDS) 3 (.ok "hi") =
      { state := sampleBlankChatState, prompts := [] } :=
  datachat_send_guard_noop sampleBlankChatState (some sampleDS) 3 (.ok "hi")
    (Or.inl (by decide))

end ClaimTheorems
